import Mathlib

/-!
Shallow embedding of `sensors/irc_sensor.py` from the stackstorm-irc pack.

The file models:
* the event normalizer handlers `_handle_pubmsg` / `_handle_privmsg` /
  `_handle_join` / `_handle_part` of `IRCSensor`, which build trigger
  payloads from raw IRC events;
* the bot session behaviour shared by `StackStormSensorSimpleBot` and
  `StackStormSensorSaslBot`: `on_welcome`, `on_nicknameinuse`, the four
  message handlers dispatched through the `_handlers` mapping with a
  no-op default, `on_error` (simple bot only) and the `904` handler
  `on_sasl_failed` (SASL bot only);
* the sensor facade: `IRCSensor.__init__` (configuration parsing, modelled
  as an `Except` computation since Python raises KeyError / IndexError /
  ValueError there) and `IRCSensor.setup` (bot construction, SASL mode
  selected by Python truthiness of the configured password).

Python strings are modelled as `String`, event receipt time as an integer
(`int(time.time())` at the moment the handler runs) supplied with each
delivered event, and `random.randint` as a function of an abstract seed
whose value always lies in the requested interval.
-/

namespace IrcSensor

/-- A JSON-like value appearing in a dispatched trigger payload. -/
inductive Val where
  | str : String → Val
  | int : Int → Val
  | obj : List (String × Val) → Val

/-- One call of `sensor_service.dispatch(trigger=..., payload=...)`:
the trigger name and the payload dict (as an ordered key/value list). -/
structure Dispatch where
  trigger : String
  payload : List (String × Val)

/-- A raw IRC event as the `irc` library delivers it to the bot: the event
type name, the source (nick and host), the target, the argument list, and
the `timestamp` attribute which the `on_*` methods overwrite with the
receipt time before invoking a handler. -/
structure RawEvent where
  etype : String
  source_nick : String
  source_host : String
  target : String
  arguments : List String
  timestamp : Int

/-- `IRCSensor._handle_pubmsg`: payload with source{nick,host}, channel
(the event target), timestamp, and message (`event.arguments[0]`; `none`
models the IndexError Python raises when the argument list is empty). -/
def handle_pubmsg (e : RawEvent) : Option Dispatch :=
  match e.arguments with
  | [] => none
  | m :: _ =>
    some ⟨"irc.pubmsg",
      [("source", Val.obj [("nick", Val.str e.source_nick),
                           ("host", Val.str e.source_host)]),
       ("channel", Val.str e.target),
       ("timestamp", Val.int e.timestamp),
       ("message", Val.str m)]⟩

/-- `IRCSensor._handle_privmsg`: like pubmsg but without a channel field. -/
def handle_privmsg (e : RawEvent) : Option Dispatch :=
  match e.arguments with
  | [] => none
  | m :: _ =>
    some ⟨"irc.privmsg",
      [("source", Val.obj [("nick", Val.str e.source_nick),
                           ("host", Val.str e.source_host)]),
       ("timestamp", Val.int e.timestamp),
       ("message", Val.str m)]⟩

/-- `IRCSensor._handle_join`: source, timestamp, channel (in the source's
dict order); no message field and no use of the argument list. -/
def handle_join (e : RawEvent) : Option Dispatch :=
  some ⟨"irc.join",
    [("source", Val.obj [("nick", Val.str e.source_nick),
                         ("host", Val.str e.source_host)]),
     ("timestamp", Val.int e.timestamp),
     ("channel", Val.str e.target)]⟩

/-- `IRCSensor._handle_part`: same shape as `_handle_join`. -/
def handle_part (e : RawEvent) : Option Dispatch :=
  some ⟨"irc.part",
    [("source", Val.obj [("nick", Val.str e.source_nick),
                         ("host", Val.str e.source_host)]),
     ("timestamp", Val.int e.timestamp),
     ("channel", Val.str e.target)]⟩

/-- A message handler as stored in the sensor's `_handlers` dict. -/
def Handler := RawEvent → Option Dispatch

/-- The `_handlers` dict built by `IRCSensor.setup`. -/
def deployedHandlers : List (String × Handler) :=
  [("pubmsg", handle_pubmsg),
   ("privmsg", handle_privmsg),
   ("join", handle_join),
   ("part", handle_part)]

/-- `dict.get(key)` on the handler mapping: `none` when the key is absent. -/
def lookupHandler (hs : List (String × Handler)) (k : String) : Option Handler :=
  match hs with
  | [] => none
  | (k', h) :: rest => if k' = k then some h else lookupHandler rest k

/-- `random.randint(a, b)`: an integer drawn from `[a, b]` inclusive,
modelled as a function of an abstract seed. -/
def randint (a b : Nat) (seed : Nat) : Nat :=
  a + seed % (b - a + 1)

/-- `StackStormSensorBaseBot.on_nicknameinuse`: the new nickname requested
after a collision, `'%s-%s' % (connection.get_nickname(), random.randint(1, 1000))`. -/
def newNickname (current : String) (seed : Nat) : String :=
  current ++ "-" ++ toString (randint 1 1000 seed)

/-- Prefix test on character lists. -/
def leadsWith : List Char → List Char → Bool
  | [], _ => true
  | _ :: _, [] => false
  | p :: ps, h :: hs => p = h && leadsWith ps hs

/-- Substring test on character lists: `pat` occurs somewhere in the list. -/
def hasSub (pat : List Char) : List Char → Bool
  | [] => leadsWith pat []
  | h :: hs => leadsWith pat (h :: hs) || hasSub pat hs

/-- Python's `pat in hay` on strings. -/
def strContainsSub (hay pat : String) : Bool :=
  hasSub pat.data hay.data

/-- Which bot class `IRCSensor.setup` instantiated. -/
inductive BotKind where
  | simple
  | sasl

/-- Static per-session data: the configured channel list and the handler
mapping, both stored on the bot at construction. -/
structure BotCfg where
  channels : List String
  handlers : List (String × Handler)

/-- Mutable session state: the current nickname and whether `die()` ran. -/
structure BotState where
  nickname : String
  terminated : Bool

/-- An observable effect of handling one event: a channel join request, a
nickname-change request, a trigger dispatch, or session termination. -/
inductive Action where
  | joinChan : String → Action
  | nickRequest : String → Action
  | dispatch : Dispatch → Action
  | die : Action

/-- Modelled from the spec: the `RejoinOnKick` behaviour policy that
`StackStormSensorSimpleBot` mixes in (its code lives in the external `ib3`
package, not in this repository; the spec describes it as the behaviour
policy that reacts to kick events, with rejoin-on-kick behaviour). When the
session's own nickname (the kicked user, `event.arguments[0]`) is kicked
from a channel (`event.target`), the bot rejoins that channel. -/
def rejoinOnKickActions (st : BotState) (e : RawEvent) : List Action :=
  match e.arguments with
  | kicked :: _ => if kicked = st.nickname then [Action.joinChan e.target] else []
  | [] => []

/-- A raw event together with the adapter-local receipt context: the
integer receipt time (what `int(time.time())` yields when the handler
runs) and the abstract randomness seed available at that moment. -/
structure TimedEvent where
  now : Int
  seed : Nat
  ev : RawEvent

/-- The event kinds `StackStormSensorBaseBot` routes through `_handlers`. -/
def msgKinds : List String := ["pubmsg", "privmsg", "join", "part"]

/-- `event.timestamp = int(time.time())` in the four `on_*` message methods. -/
def setTimestamp (now : Int) (e : RawEvent) : RawEvent :=
  { e with timestamp := now }

/-- `self._handlers.get(kind, lambda connection, event: connection)` followed
by the handler call: an absent key means the default no-op lambda (no
dispatch, no error); a present handler either dispatches once or raises
(`none`). -/
def runHandler (hs : List (String × Handler)) (now : Int) (e : RawEvent) :
    Option (List Action) :=
  match lookupHandler hs e.etype with
  | none => some []
  | some h =>
    match h (setTimestamp now e) with
    | none => none
    | some d => some [Action.dispatch d]

/-- One step of the bot's event loop: how the instantiated bot class reacts
to one delivered event. `on_welcome` joins every configured channel in
order; `on_nicknameinuse` requests a fresh suffixed nickname; pubmsg /
privmsg / join / part go through the handler mapping; `on_error` is defined
only on the simple bot and calls `die()` when the target contains
"SASL access only"; the `904` global handler is registered only by the SASL
bot and calls `die()`; a kick is handled by the `RejoinOnKick` policy mixed
into the simple bot only. Every other event type has no handler on these
classes and is ignored (the SASL registration handshake itself — cap /
authenticate exchanges — is owned by the external client collaborator per
the spec and happens outside these session reactions). `none` models an
uncaught Python exception. -/
def botStep (k : BotKind) (cfg : BotCfg) (st : BotState) (t : TimedEvent) :
    Option (BotState × List Action) :=
  let e := t.ev
  if e.etype = "welcome" then
    some (st, cfg.channels.map Action.joinChan)
  else if e.etype = "nicknameinuse" then
    let n := newNickname st.nickname t.seed
    some ({ st with nickname := n }, [Action.nickRequest n])
  else if msgKinds.contains e.etype then
    match runHandler cfg.handlers t.now e with
    | none => none
    | some acts => some (st, acts)
  else if e.etype = "error" then
    match k with
    | BotKind.simple =>
      if strContainsSub e.target "SASL access only" then
        some ({ st with terminated := true }, [Action.die])
      else
        some (st, [])
    | BotKind.sasl => some (st, [])
  else if e.etype = "904" then
    match k with
    | BotKind.sasl => some ({ st with terminated := true }, [Action.die])
    | BotKind.simple => some (st, [])
  else if e.etype = "kick" then
    match k with
    | BotKind.simple => some (st, rejoinOnKickActions st e)
    | BotKind.sasl => some (st, [])
  else
    some (st, [])

/-- Run the session over a sequence of delivered events, collecting the
emitted actions. `die()` calls `sys.exit`, so once the state is terminated
no further event is processed; an uncaught exception also ends the loop. -/
def runBot (k : BotKind) (cfg : BotCfg) : BotState → List TimedEvent → List Action
  | _, [] => []
  | st, t :: ts =>
    if st.terminated then []
    else
      match botStep k cfg st t with
      | none => []
      | some (st', acts) => acts ++ runBot k cfg st' ts

/-- The host-supplied configuration dict: `None` models an absent key. -/
structure Config where
  server : Option String
  nickname : Option String
  password : Option String
  channels : Option (List String)

/-- The parsed sensor configuration produced by `IRCSensor.__init__`. -/
structure SensorCfg where
  serverHost : String
  serverPort : Int
  nickname : String
  password : Option String
  channels : List String

/-- Python `str.split(':')` on the character list (always nonempty output,
with `[l]` returned when no colon occurs). -/
def splitColon : List Char → List (List Char)
  | [] => [[]]
  | c :: rest =>
    match splitColon rest with
    | [] => [[c]]
    | g :: gs => if c = ':' then [] :: g :: gs else (c :: g) :: gs

/-- Numeric value of a digit list. -/
def digitsToNat : List Char → Nat :=
  List.foldl (fun n c => n * 10 + (c.toNat - '0'.toNat)) 0

/-- Strip leading and trailing whitespace, as Python `int()` does before
parsing. -/
def pyStrip (l : List Char) : List Char :=
  ((l.dropWhile Char.isWhitespace).reverse.dropWhile Char.isWhitespace).reverse

/-- Python `int(s)`: optional surrounding whitespace, an optional sign, then
a nonempty digit run; `none` models the ValueError on anything else.
(Underscore digit grouping is not modelled; no claim exercises it.) -/
def pyInt : List Char → Option Int
  | l =>
    match pyStrip l with
    | '-' :: ds =>
      if ds ≠ [] ∧ ds.all Char.isDigit then some (-(digitsToNat ds : Int)) else none
    | '+' :: ds =>
      if ds ≠ [] ∧ ds.all Char.isDigit then some (digitsToNat ds : Int) else none
    | ds =>
      if ds ≠ [] ∧ ds.all Char.isDigit then some (digitsToNat ds : Int) else none

/-- `IRCSensor.__init__`: `split = config['server'].split(':')`, host is
`split[0]`, port is `int(split[1])`, then the `nickname` key, the
`password` via `.get` (never raises), and the `channels` key. Each
`Except.error` models the exception Python raises at that point. (Named
`initSensor` because `initialize` is reserved in Lean.) -/
def initSensor (c : Config) : Except String SensorCfg :=
  match c.server with
  | none => Except.error "KeyError: server"
  | some server =>
    match splitColon server.data with
    | [] => Except.error "unreachable: split never returns an empty list"
    | host :: rest =>
      match rest with
      | [] => Except.error "IndexError: list index out of range"
      | portStr :: _ =>
        match pyInt portStr with
        | none => Except.error "ValueError: invalid literal for int"
        | some port =>
          match c.nickname with
          | none => Except.error "KeyError: nickname"
          | some nickname =>
            match c.channels with
            | none => Except.error "KeyError: channels"
            | some channels =>
              Except.ok ⟨String.mk host, port, nickname, c.password, channels⟩

/-- Whether `IRCSensor.__init__` succeeded (no exception raised). -/
def initOk (c : Config) : Bool :=
  match initSensor c with
  | Except.ok _ => true
  | Except.error _ => false

/-- Python truthiness of `self._password` (an optional string): `None` and
the empty string are falsy. -/
def pyTruthy : Option String → Bool
  | none => false
  | some s => !(s == "")

/-- The constructor arguments of the bot instantiated by `IRCSensor.setup`. -/
structure BotSpec where
  kind : BotKind
  serverHost : String
  serverPort : Int
  nickname : String
  realname : String
  identPassword : Option String
  channels : List String

/-- `IRCSensor.setup`: `if self._password:` selects the SASL bot (passing
`ident_password`), otherwise the simple bot; both receive
`realname=self._nickname`. -/
def setup (sc : SensorCfg) : BotSpec :=
  if pyTruthy sc.password then
    { kind := BotKind.sasl,
      serverHost := sc.serverHost,
      serverPort := sc.serverPort,
      nickname := sc.nickname,
      realname := sc.nickname,
      identPassword := sc.password,
      channels := sc.channels }
  else
    { kind := BotKind.simple,
      serverHost := sc.serverHost,
      serverPort := sc.serverPort,
      nickname := sc.nickname,
      realname := sc.nickname,
      identPassword := none,
      channels := sc.channels }

/-- The claim's notion of a well-formed server string: exactly `host:port`
with an integer port (this definition follows the claim's wording, to be
compared against what `initSensor` actually accepts). -/
def serverWellFormed_claim (s : String) : Bool :=
  match splitColon s.data with
  | [_, p] => (pyInt p).isSome
  | _ => false

/-- The configurations `IRCSensor.__init__` actually accepts: a `server`
value whose colon-split has a second segment parsing as an integer
(further segments are silently dropped), plus present `nickname` and
`channels` keys. -/
def acceptedConfig_amended (c : Config) : Bool :=
  match c.server with
  | none => false
  | some s =>
    match splitColon s.data with
    | _ :: p :: _ => (pyInt p).isSome && c.nickname.isSome && c.channels.isSome
    | _ => false

/-- A 904 ERR_SASLFAIL numeric reply, as delivered by the `irc` library. -/
def ev904 : RawEvent := ⟨"904", "srv", "srv", "bot1", ["SASL authentication failed"], 0⟩

/-- A server welcome event. -/
def welcomeEv : RawEvent := ⟨"welcome", "srv", "srv", "bot1", [], 0⟩

/-- A server ERROR notice whose text contains "SASL access only". -/
def evErrSasl : RawEvent :=
  ⟨"error", "srv", "srv", "Closing Link (Banned: SASL access only on this server)", [], 0⟩

/-- The spec's scenario pubmsg event: alice posting "deploy v2" in #ops. -/
def pubmsgEv : RawEvent := ⟨"pubmsg", "alice", "alice@host", "#ops", ["deploy v2"], 0⟩

/-- An ordinary join event: the channel is in `target` and the argument
list is empty, as the `irc` library delivers a JOIN. -/
def joinEv : RawEvent := ⟨"join", "alice", "alice@host", "#ops", [], 7⟩

/-- A session configured for the single channel #ops with the handler
mapping that `IRCSensor.setup` installs. -/
def simpleCfg : BotCfg := ⟨["#ops"], deployedHandlers⟩

/-- A live session whose current nickname is bot1. -/
def st0 : BotState := ⟨"bot1", false⟩

end IrcSensor

namespace IrcSensor

/-- C1: for every pubmsg, privmsg, join or part event, the dispatched
trigger payload has exactly the fields of the spec's table for that kind
(stated both as the literal payload the handler builds and as a
permutation of the table's key list), with the values taken from the
event: source nick/host, the target as channel, the first argument as the
message, and the event's timestamp. The nonempty-arguments hypothesis
appears only in the pubmsg/privmsg conjuncts (where `event.arguments[0]`
is read); join and part hold for every event, empty argument list
included. -/
theorem claim1_normalizer_payload_fields (e : RawEvent) :
    (∀ m rest, e.arguments = m :: rest →
      handle_pubmsg e = some ⟨"irc.pubmsg",
        [("source", Val.obj [("nick", Val.str e.source_nick),
                             ("host", Val.str e.source_host)]),
         ("channel", Val.str e.target),
         ("timestamp", Val.int e.timestamp),
         ("message", Val.str m)]⟩
      ∧ ∀ d, handle_pubmsg e = some d →
          (d.payload.map Prod.fst).Perm ["source", "channel", "timestamp", "message"])
    ∧ (∀ m rest, e.arguments = m :: rest →
      handle_privmsg e = some ⟨"irc.privmsg",
        [("source", Val.obj [("nick", Val.str e.source_nick),
                             ("host", Val.str e.source_host)]),
         ("timestamp", Val.int e.timestamp),
         ("message", Val.str m)]⟩
      ∧ ∀ d, handle_privmsg e = some d →
          (d.payload.map Prod.fst).Perm ["source", "timestamp", "message"])
    ∧ (handle_join e = some ⟨"irc.join",
        [("source", Val.obj [("nick", Val.str e.source_nick),
                             ("host", Val.str e.source_host)]),
         ("timestamp", Val.int e.timestamp),
         ("channel", Val.str e.target)]⟩
      ∧ ∀ d, handle_join e = some d →
          (d.payload.map Prod.fst).Perm ["source", "channel", "timestamp"])
    ∧ (handle_part e = some ⟨"irc.part",
        [("source", Val.obj [("nick", Val.str e.source_nick),
                             ("host", Val.str e.source_host)]),
         ("timestamp", Val.int e.timestamp),
         ("channel", Val.str e.target)]⟩
      ∧ ∀ d, handle_part e = some d →
          (d.payload.map Prod.fst).Perm ["source", "channel", "timestamp"]) := by
  refine ⟨?_, ?_, ?_, ?_⟩
  · intro m rest h
    constructor <;> simp [handle_pubmsg, h]
  · intro m rest h
    constructor <;> simp [handle_privmsg, h]
  · constructor <;> simp [handle_join]
    decide
  · constructor <;> simp [handle_part]
    decide

/-- C1 witness: the spec's scenario pubmsg from alice in #ops dispatches
exactly the table's payload, and an ordinary join (empty argument list)
dispatches exactly its table's payload. -/
theorem claim1_witness :
    handle_pubmsg pubmsgEv = some ⟨"irc.pubmsg",
      [("source", Val.obj [("nick", Val.str "alice"), ("host", Val.str "alice@host")]),
       ("channel", Val.str "#ops"),
       ("timestamp", Val.int 0),
       ("message", Val.str "deploy v2")]⟩
    ∧ handle_join joinEv = some ⟨"irc.join",
      [("source", Val.obj [("nick", Val.str "alice"), ("host", Val.str "alice@host")]),
       ("timestamp", Val.int 7),
       ("channel", Val.str "#ops")]⟩ :=
  ⟨((claim1_normalizer_payload_fields pubmsgEv).1 "deploy v2" [] rfl).1,
   ((claim1_normalizer_payload_fields joinEv).2.2.1).1⟩

/-- C2: `setup` constructs the SASL bot exactly when the configured
password is present and non-empty, and the unauthenticated bot exactly
when it is absent or empty. -/
theorem claim2_sasl_iff_password (sc : SensorCfg) :
    ((setup sc).kind = BotKind.sasl ↔ ∃ p, sc.password = some p ∧ p ≠ "")
    ∧ ((setup sc).kind = BotKind.simple ↔ (sc.password = none ∨ sc.password = some "")) := by
  cases hp : sc.password with
  | none => simp [setup, pyTruthy, hp]
  | some p =>
    by_cases hpe : p = "" <;>
      simp [setup, pyTruthy, hp, hpe]

/-- C3 counterexample: the claim says BOTH bots terminate on BOTH fatal
signals, but the unauthenticated bot has no handler for numeric reply 904:
it keeps running, and a later welcome still issues a channel join. -/
theorem claim3_counterexample :
    botStep BotKind.simple simpleCfg st0 ⟨0, 0, ev904⟩ = some (st0, [])
    ∧ runBot BotKind.simple simpleCfg st0 [⟨0, 0, ev904⟩, ⟨1, 0, welcomeEv⟩]
        = [Action.joinChan "#ops"] := ⟨rfl, rfl⟩

/-- C3 amended: the unauthenticated bot terminates on a server error
notice containing "SASL access only", the SASL bot terminates on numeric
reply 904, and a terminated session processes no further events, so no
join is ever issued after termination. -/
theorem claim3_amended_fatal_auth :
    (∀ (cfg : BotCfg) (st : BotState) (t : TimedEvent),
        t.ev.etype = "error" →
        strContainsSub t.ev.target "SASL access only" = true →
        botStep BotKind.simple cfg st t = some ({ st with terminated := true }, [Action.die]))
    ∧ (∀ (cfg : BotCfg) (st : BotState) (t : TimedEvent),
        t.ev.etype = "904" →
        botStep BotKind.sasl cfg st t = some ({ st with terminated := true }, [Action.die]))
    ∧ (∀ (k : BotKind) (cfg : BotCfg) (st : BotState) (ts : List TimedEvent),
        st.terminated = true → runBot k cfg st ts = []) := by
  refine ⟨?_, ?_, ?_⟩
  · intro cfg st t h1 h2
    simp [botStep, h1, h2, msgKinds]
  · intro cfg st t h1
    simp [botStep, h1, msgKinds]
  · intro k cfg st ts h
    cases ts with
    | nil => rfl
    | cons t ts => simp [runBot, h]

/-- C3 witness: concrete fatal-auth events terminate the matching bot, and
a terminated session emits nothing (no joins) on a later welcome. -/
theorem claim3_witness :
    botStep BotKind.simple simpleCfg st0 ⟨0, 0, evErrSasl⟩
      = some (⟨"bot1", true⟩, [Action.die])
    ∧ botStep BotKind.sasl simpleCfg st0 ⟨0, 0, ev904⟩
      = some (⟨"bot1", true⟩, [Action.die])
    ∧ runBot BotKind.sasl simpleCfg ⟨"bot1", true⟩ [⟨0, 0, welcomeEv⟩] = [] :=
  ⟨claim3_amended_fatal_auth.1 simpleCfg st0 ⟨0, 0, evErrSasl⟩ rfl rfl,
   claim3_amended_fatal_auth.2.1 simpleCfg st0 ⟨0, 0, ev904⟩ rfl,
   claim3_amended_fatal_auth.2.2 BotKind.sasl simpleCfg ⟨"bot1", true⟩ [⟨0, 0, welcomeEv⟩] rfl⟩

/-- C4: with the handler mapping installed by `setup`, every dispatch
emitted for a pubmsg / privmsg / join / part event carries a timestamp
field that is an integer at least the receipt time of the raw event (in
fact exactly the receipt time `int(time.time())`). -/
theorem claim4_timestamp_receipt (k : BotKind) (cfg : BotCfg) (st : BotState) (t : TimedEvent)
    (hcfg : cfg.handlers = deployedHandlers)
    (hk : msgKinds.contains t.ev.etype = true)
    (st' : BotState) (acts : List Action)
    (hstep : botStep k cfg st t = some (st', acts))
    (a : Action) (ha : a ∈ acts) :
    ∃ d ts, a = Action.dispatch d ∧ ("timestamp", Val.int ts) ∈ d.payload ∧ t.now ≤ ts := by
  have h4 : t.ev.etype = "pubmsg" ∨ t.ev.etype = "privmsg"
      ∨ t.ev.etype = "join" ∨ t.ev.etype = "part" := by
    simpa [msgKinds] using hk
  rcases h4 with h | h | h | h
  · cases harg : t.ev.arguments with
    | nil =>
      rw [botStep.eq_def] at hstep
      simp [h, msgKinds, runHandler, hcfg, lookupHandler, deployedHandlers,
        handle_pubmsg, setTimestamp, harg] at hstep
    | cons m restArgs =>
      rw [botStep.eq_def] at hstep
      simp [h, msgKinds, runHandler, hcfg, lookupHandler, deployedHandlers,
        handle_pubmsg, setTimestamp, harg] at hstep
      rcases hstep with ⟨hst, hacts⟩
      subst hacts
      simp only [List.mem_singleton] at ha
      subst ha
      exact ⟨_, t.now, rfl, by simp, le_refl _⟩
  · cases harg : t.ev.arguments with
    | nil =>
      rw [botStep.eq_def] at hstep
      simp [h, msgKinds, runHandler, hcfg, lookupHandler, deployedHandlers,
        handle_privmsg, setTimestamp, harg] at hstep
    | cons m restArgs =>
      rw [botStep.eq_def] at hstep
      simp [h, msgKinds, runHandler, hcfg, lookupHandler, deployedHandlers,
        handle_privmsg, setTimestamp, harg] at hstep
      rcases hstep with ⟨hst, hacts⟩
      subst hacts
      simp only [List.mem_singleton] at ha
      subst ha
      exact ⟨_, t.now, rfl, by simp, le_refl _⟩
  · rw [botStep.eq_def] at hstep
    simp [h, msgKinds, runHandler, hcfg, lookupHandler, deployedHandlers,
      handle_join, setTimestamp] at hstep
    rcases hstep with ⟨hst, hacts⟩
    subst hacts
    simp only [List.mem_singleton] at ha
    subst ha
    exact ⟨_, t.now, rfl, by simp, le_refl _⟩
  · rw [botStep.eq_def] at hstep
    simp [h, msgKinds, runHandler, hcfg, lookupHandler, deployedHandlers,
      handle_part, setTimestamp] at hstep
    rcases hstep with ⟨hst, hacts⟩
    subst hacts
    simp only [List.mem_singleton] at ha
    subst ha
    exact ⟨_, t.now, rfl, by simp, le_refl _⟩

/-- C4 witness: the scenario pubmsg received at time 5 dispatches a
payload whose timestamp is at least 5. -/
theorem claim4_witness :
    ∃ d ts,
      Action.dispatch ⟨"irc.pubmsg",
        [("source", Val.obj [("nick", Val.str "alice"), ("host", Val.str "alice@host")]),
         ("channel", Val.str "#ops"),
         ("timestamp", Val.int 5),
         ("message", Val.str "deploy v2")]⟩ = Action.dispatch d
      ∧ ("timestamp", Val.int ts) ∈ d.payload ∧ (5 : Int) ≤ ts :=
  claim4_timestamp_receipt BotKind.simple simpleCfg st0 ⟨5, 0, pubmsgEv⟩ rfl rfl st0
    [Action.dispatch ⟨"irc.pubmsg",
        [("source", Val.obj [("nick", Val.str "alice"), ("host", Val.str "alice@host")]),
         ("channel", Val.str "#ops"),
         ("timestamp", Val.int 5),
         ("message", Val.str "deploy v2")]⟩] rfl _ (List.mem_singleton.mpr rfl)

/-- C5: the nickname requested after a collision is always the current
nickname followed by a dash and an integer in 1..1000 inclusive. -/
theorem claim5_nickname_suffix (current : String) (seed : Nat) :
    ∃ k, 1 ≤ k ∧ k ≤ 1000 ∧ newNickname current seed = current ++ "-" ++ toString k := by
  refine ⟨randint 1 1000 seed, ?_, ?_, rfl⟩
  · unfold randint; omega
  · unfold randint; omega

/-- C6: the nickname requested after a rejection is never the exact string
that was just rejected (the suffixed name is strictly longer). -/
theorem claim6_nickname_not_reused (current : String) (seed : Nat) :
    newNickname current seed ≠ current := by
  intro h
  have hl := congrArg String.length h
  rw [newNickname, String.length_append, String.length_append] at hl
  have : ("-" : String).length = 1 := rfl
  omega

/-- C7: on the welcome event either bot issues a join for every configured
channel, in list order. -/
theorem claim7_welcome_joins (k : BotKind) (cfg : BotCfg) (st : BotState) (t : TimedEvent)
    (h : t.ev.etype = "welcome") :
    botStep k cfg st t = some (st, cfg.channels.map Action.joinChan) := by
  simp [botStep, h]

/-- C7 witness: with channels ["#ops"], a welcome event produces exactly a
join for "#ops". -/
theorem claim7_witness :
    botStep BotKind.simple simpleCfg st0 ⟨0, 0, welcomeEv⟩
      = some (st0, [Action.joinChan "#ops"]) :=
  claim7_welcome_joins BotKind.simple simpleCfg st0 ⟨0, 0, welcomeEv⟩ rfl

/-- C8: an event kind whose key is absent from the `_handlers` mapping is
silently ignored by the default no-op handler. First conjunct, the
mechanism itself: whenever the mapping lookup misses, the default lambda
runs — no dispatch, no error. Second conjunct, at the session level for the
unauthenticated bot: an event of any kind outside the ones its class
reacts to through dedicated methods (welcome / nicknameinuse / error, and
kick via the `RejoinOnKick` mixin) whose key the mapping lacks leaves the
state unchanged and emits nothing — in particular a 904 or any unknown
kind is a no-op there. -/
theorem claim8_unmapped_noop :
    (∀ (hs : List (String × Handler)) (now : Int) (e : RawEvent),
        lookupHandler hs e.etype = none → runHandler hs now e = some [])
    ∧ (∀ (cfg : BotCfg) (st : BotState) (t : TimedEvent),
        t.ev.etype ∉ (["welcome", "nicknameinuse", "error", "kick"] : List String) →
        lookupHandler cfg.handlers t.ev.etype = none →
        botStep BotKind.simple cfg st t = some (st, [])) := by
  constructor
  · intro hs now e h
    simp [runHandler, h]
  · intro cfg st t hlife habsent
    simp only [List.mem_cons, List.not_mem_nil, or_false, not_or] at hlife
    obtain ⟨h1, h2, h3, h4⟩ := hlife
    rw [botStep.eq_def]
    by_cases hm : t.ev.etype ∈ msgKinds
    · simp [h1, h2, h3, h4, hm, runHandler, habsent]
    · simp [h1, h2, h3, h4, hm]

/-- C8 witness: with an empty handler mapping, the default no-op handler
fires for a pubmsg, and the simple-bot session treats the event as a
complete no-op. -/
theorem claim8_witness :
    runHandler [] 0 pubmsgEv = some []
    ∧ botStep BotKind.simple ⟨["#ops"], []⟩ st0 ⟨0, 0, pubmsgEv⟩ = some (st0, []) :=
  ⟨claim8_unmapped_noop.1 [] 0 pubmsgEv rfl,
   claim8_unmapped_noop.2 ⟨["#ops"], []⟩ st0 ⟨0, 0, pubmsgEv⟩ (by decide) rfl⟩

/-- C9 counterexample: "h:1:2" is not of the form host:port with an
integer port (the claim's notion of well-formed), yet `IRCSensor.__init__`
accepts the configuration without raising: `split(':')[1]` is "1" and the
trailing ":2" is silently dropped. -/
theorem claim9_counterexample :
    serverWellFormed_claim "h:1:2" = false
    ∧ initOk ⟨some "h:1:2", some "bot1", none, some ["#ops"]⟩ = true := ⟨rfl, rfl⟩

/-- C9 amended: `IRCSensor.__init__` raises before any network I/O exactly
when the `server` key is missing, the server string has no colon, the
segment after the first colon does not parse as an integer, or the
`nickname` or `channels` key is missing; extra colon-separated segments
beyond host:port are accepted and ignored. -/
theorem claim9_amended_accepts (c : Config) : initOk c = acceptedConfig_amended c := by
  rcases c with ⟨server, nickname, password, channels⟩
  cases server with
  | none => rfl
  | some s =>
    simp only [initOk, initSensor, acceptedConfig_amended]
    cases hsp : splitColon s.data with
    | nil => rfl
    | cons hd tl =>
      cases tl with
      | nil => rfl
      | cons p tl2 =>
        cases hpi : pyInt p with
        | none => simp [hpi]
        | some v =>
          cases nickname with
          | none => simp [hpi]
          | some n =>
            cases channels with
            | none => simp [hpi]
            | some cs => simp [hpi]

/-- C10: the bot constructed by `setup` always receives
`realname=self._nickname`, in both authentication modes. -/
theorem claim10_realname (sc : SensorCfg) : (setup sc).realname = sc.nickname := by
  unfold setup
  split <;> rfl

end IrcSensor
